import Mathlib

/-!
Shallow embedding of the Sentiment-Analysis repository's ETL pipeline
(`src/scraper.py`, `src/sentiment_facebook.py`, `src/sentiment_insta.py`,
`src/sentiment_twitter.py`).

Modelling conventions:
* Python dicts returned by the external API become Lean structures whose
  fields are `Option`-valued when the source reads them with `dict.get`
  (a `none` models a missing key / `None` value; `getD` models the
  `.get(key, default)` call).
* Python machine floats used only for the `sentiment_ratio` division are
  modelled over `ℚ`; the claims about that column concern the guard, not
  rounding.
* The external Apify client and the sentiment classifier are modelled as
  oracles: an `Except Unit` value models a call that either raises an
  exception (`Except.error`) or returns normally, and the classifier is a
  function `String → Option SentResult` where `none` models a raised
  exception inside the `try` block.
* Pandas DataFrames become `List` of row structures; `drop_duplicates`
  (keep="first") becomes `dropDuplicatesBy` below.
-/

/-! ## Python string primitives -/

/-- Whitespace characters recognised by Python's `str.split()` / `str.strip()`
and by the regex class `\s` for the ASCII range used in this pipeline. -/
def pyIsSpace (c : Char) : Bool :=
  c = ' ' ∨ c = '\t' ∨ c = '\n' ∨ c = '\x0d' ∨ c = '\x0b' ∨ c = '\x0c'

/-- Remove every NUL character, modelling `str.replace("\x00", "")`. -/
def removeNul (l : List Char) : List Char :=
  l.filter (fun c => ¬ c = '\x00')

/-- Accumulator-based splitting on whitespace, dropping empty fields:
the semantics of Python's `str.split()` with no argument. -/
def pySplitAux : List Char → List Char → List (List Char)
  | [], [] => []
  | [], acc => [acc.reverse]
  | c :: cs, acc =>
    if pyIsSpace c then
      match acc with
      | [] => pySplitAux cs []
      | _ :: _ => acc.reverse :: pySplitAux cs []
    else pySplitAux cs (c :: acc)

/-- `s.split()` in Python: the whitespace-delimited words of `s`. -/
def splitWords (l : List Char) : List (List Char) := pySplitAux l []

/-- `" ".join(ws)` in Python. -/
def joinWords : List (List Char) → List Char
  | [] => []
  | [w] => w
  | w :: ws => w ++ ' ' :: joinWords ws

/-- One pass of the regex substitution `re.sub(r"\s+", " ", s)`: every maximal
run of whitespace becomes a single space.  The Boolean flag records whether
the previous character was part of a whitespace run. -/
def collapseAux : List Char → Bool → List Char
  | [], _ => []
  | c :: cs, prevWs =>
    if pyIsSpace c then
      if prevWs then collapseAux cs true else ' ' :: collapseAux cs true
    else c :: collapseAux cs false

/-- `re.sub(r"\s+", " ", s)` over the characters of `s`. -/
def collapseWs (l : List Char) : List Char := collapseAux l false

/-- Python `str.strip()`: drop leading and trailing whitespace. -/
def pyStripChars (l : List Char) : List Char :=
  ((l.dropWhile pyIsSpace).reverse.dropWhile pyIsSpace).reverse

/-- `str.strip()` on a `String`. -/
def pyStripStr (s : String) : String := ⟨pyStripChars s.data⟩

/-- `" ".join(s.split())` followed by `.replace("\x00", "")`: the cleaning
applied by `FacebookScraperPipeline._clean_row` to one text field. -/
def cleanRowText (s : String) : String :=
  ⟨removeNul (joinWords (splitWords s.data))⟩

/-- `.str.replace("\x00","").str.replace(r"\s+"," ").str.strip()`: the
cleaning applied by `FacebookScraperPipeline._clean_dataframe` to one cell. -/
def cleanDfText (s : String) : String :=
  ⟨pyStripChars (collapseWs (removeNul s.data))⟩

/-- Python truthiness of an optional string (`None` and `""` are falsy). -/
def truthy : Option String → Bool
  | none => false
  | some s => ¬ s = ""

/-- Python's `a or b` on optional strings: `b` when `a` is falsy. -/
def pyOr (a b : Option String) : Option String :=
  if truthy a then a else b

/-- Python `s[:n]` on a string (slicing counts characters). -/
def pyTake (n : Nat) (s : String) : String := ⟨s.data.take n⟩

/-! ## `drop_duplicates(subset=key, keep="first")` -/

/-- Pandas `drop_duplicates` with `keep="first"`: keep each element whose
key has not been seen earlier in the list. -/
def dropDuplicatesBy {α κ : Type} [DecidableEq κ] (key : α → κ) :
    List α → List α :=
  go []
where
  /-- `seen` holds the keys of the rows already kept. -/
  go (seen : List κ) : List α → List α
  | [] => []
  | x :: xs =>
    if key x ∈ seen then go seen xs
    else x :: go (key x :: seen) xs

theorem dropDuplicatesBy_go_key_not_seen {α κ : Type} [DecidableEq κ]
    (key : α → κ) (l : List α) :
    ∀ seen x, x ∈ dropDuplicatesBy.go key seen l → key x ∉ seen := by
  induction l with
  | nil => intro seen x hx; simp [dropDuplicatesBy.go] at hx
  | cons a as ih =>
    intro seen x hx
    by_cases h : key a ∈ seen
    · simp only [dropDuplicatesBy.go, if_pos h] at hx
      exact ih seen x hx
    · simp only [dropDuplicatesBy.go, if_neg h, List.mem_cons] at hx
      rcases hx with rfl | hx
      · exact h
      · have := ih _ x hx
        intro hmem
        exact this (List.mem_cons_of_mem _ hmem)

theorem dropDuplicatesBy_go_pairwise {α κ : Type} [DecidableEq κ]
    (key : α → κ) (l : List α) :
    ∀ seen, (dropDuplicatesBy.go key seen l).Pairwise
      (fun a b => ¬ key a = key b) := by
  induction l with
  | nil => intro seen; simp [dropDuplicatesBy.go]
  | cons a as ih =>
    intro seen
    by_cases h : key a ∈ seen
    · simpa only [dropDuplicatesBy.go, if_pos h] using ih seen
    · simp only [dropDuplicatesBy.go, if_neg h]
      refine List.Pairwise.cons ?_ (ih (key a :: seen))
      intro b hb hkey
      have := dropDuplicatesBy_go_key_not_seen key as _ b hb
      exact this (by simp [hkey])

/-- In the deduplicated list, keys are pairwise distinct. -/
theorem dropDuplicatesBy_pairwise {α κ : Type} [DecidableEq κ]
    (key : α → κ) (l : List α) :
    (dropDuplicatesBy key l).Pairwise (fun a b => ¬ key a = key b) :=
  dropDuplicatesBy_go_pairwise key l []

theorem dropDuplicatesBy_go_find? {α κ : Type} [DecidableEq κ]
    (key : α → κ) (l : List α) :
    ∀ (seen : List κ) (k : κ),
      (dropDuplicatesBy.go key seen l).find? (fun x => key x = k) =
        if k ∈ seen then none else l.find? (fun x => key x = k) := by
  induction l with
  | nil => intro seen k; simp [dropDuplicatesBy.go]
  | cons a as ih =>
    intro seen k
    by_cases h : key a ∈ seen
    · simp only [dropDuplicatesBy.go, if_pos h]
      rw [ih seen k]
      by_cases hk : k ∈ seen
      · simp [hk]
      · have hne : ¬ key a = k := fun he => hk (he ▸ h)
        simp [hk, List.find?, hne]
    · simp only [dropDuplicatesBy.go, if_neg h]
      by_cases hak : key a = k
      · have hk : k ∉ seen := fun hks => h (hak ▸ hks)
        simp [List.find?, hak, hk]
      · rw [List.find?]
        simp only [hak, decide_eq_false, Bool.false_eq_true]
        rw [ih (key a :: seen) k]
        by_cases hk : k ∈ seen
        · simp [hk, List.mem_cons, List.find?, hak]
        · have hka : ¬ k = key a := fun he => hak he.symm
          have : ¬ k ∈ key a :: seen := by
            simp [List.mem_cons, hk, hka]
          simp [this, hk, List.find?, hak]

/-- `keep="first"`: for every key, the row kept in the output is the first
row of the input with that key. -/
theorem dropDuplicatesBy_find? {α κ : Type} [DecidableEq κ]
    (key : α → κ) (l : List α) (k : κ) :
    (dropDuplicatesBy key l).find? (fun x => key x = k) =
      l.find? (fun x => key x = k) := by
  have := dropDuplicatesBy_go_find? key l [] k
  simpa [dropDuplicatesBy] using this

/-! ## Facebook pipeline data model (`FacebookScraperPipeline`) -/

/-- A comment dict built by `FacebookScraperPipeline._scrape_comments`;
`_flatten_comment` reads it with `.get(key, default)`, so fields are
optional. -/
structure FBComment where
  comment_id : Option String
  text : Option String
  timestamp : Option String
  author_id : Option String
  author_name : Option String
  author_url : Option String
  reactions_count : Option Int
  replies_count : Option Int
deriving DecidableEq, Repr

/-- A post dict built by `_scrape_posts_with_reactions` (with the
`comments` key attached by `scrape_from_url`); `_flatten_post` reads it
with `.get(key, default)` and truthiness tests, so fields are optional. -/
structure FBPost where
  post_id : Option String
  url : Option String
  post_type : Option String
  message : Option String
  timestamp : Option String
  author_id : Option String
  author_name : Option String
  author_url : Option String
  emoji_like : Option Int
  emoji_love : Option Int
  emoji_haha : Option Int
  emoji_wow : Option Int
  emoji_sad : Option Int
  emoji_angry : Option Int
  emoji_care : Option Int
  total_reactions : Option Int
  total_comments : Option Int
  total_shares : Option Int
  image_url : Option String
  video_url : Option String
  external_url : Option String
  comments : Option (List FBComment)
deriving DecidableEq, Repr

/-- The `post_*` keys produced by `_flatten_post`. -/
structure FBPostFields where
  post_id : String
  post_url : String
  post_type : String
  post_message : String
  post_timestamp : String
  post_author_id : String
  post_author_name : String
  post_author_url : String
  emoji_like : Int
  emoji_love : Int
  emoji_haha : Int
  emoji_wow : Int
  emoji_sad : Int
  emoji_angry : Int
  emoji_care : Int
  post_total_reactions : Int
  post_total_comments : Int
  post_total_shares : Int
  post_has_image : Int
  post_has_video : Int
  post_has_link : Int
deriving DecidableEq, Repr

/-- The `comment_*` keys produced by `_flatten_comment` / `_empty_comment`. -/
structure FBCommentFields where
  comment_id : String
  comment_text : String
  comment_timestamp : String
  comment_author_id : String
  comment_author_name : String
  comment_author_url : String
  comment_reactions : Int
  comment_replies : Int
deriving DecidableEq, Repr

/-- One row of the Facebook table: the dict merge
`{**_flatten_post(post), **_flatten_comment(comment)}` (the two key sets
are disjoint, so the merge is a pair). -/
structure FBRow where
  post : FBPostFields
  comment : FBCommentFields
deriving DecidableEq, Repr

namespace FacebookScraperPipeline

/-- `FacebookScraperPipeline._flatten_post`. -/
def flatten_post (post : FBPost) : FBPostFields where
  post_id := post.post_id.getD ""
  post_url := post.url.getD ""
  post_type := post.post_type.getD ""
  post_message := post.message.getD ""
  post_timestamp := post.timestamp.getD ""
  post_author_id := post.author_id.getD ""
  post_author_name := post.author_name.getD ""
  post_author_url := post.author_url.getD ""
  emoji_like := post.emoji_like.getD 0
  emoji_love := post.emoji_love.getD 0
  emoji_haha := post.emoji_haha.getD 0
  emoji_wow := post.emoji_wow.getD 0
  emoji_sad := post.emoji_sad.getD 0
  emoji_angry := post.emoji_angry.getD 0
  emoji_care := post.emoji_care.getD 0
  post_total_reactions := post.total_reactions.getD 0
  post_total_comments := post.total_comments.getD 0
  post_total_shares := post.total_shares.getD 0
  post_has_image := if truthy post.image_url then 1 else 0
  post_has_video := if truthy post.video_url then 1 else 0
  post_has_link := if truthy post.external_url then 1 else 0

/-- `FacebookScraperPipeline._flatten_comment`. -/
def flatten_comment (comment : FBComment) : FBCommentFields where
  comment_id := comment.comment_id.getD ""
  comment_text := comment.text.getD ""
  comment_timestamp := comment.timestamp.getD ""
  comment_author_id := comment.author_id.getD ""
  comment_author_name := comment.author_name.getD ""
  comment_author_url := comment.author_url.getD ""
  comment_reactions := comment.reactions_count.getD 0
  comment_replies := comment.replies_count.getD 0

/-- `FacebookScraperPipeline._empty_comment`. -/
def empty_comment : FBCommentFields where
  comment_id := ""
  comment_text := ""
  comment_timestamp := ""
  comment_author_id := ""
  comment_author_name := ""
  comment_author_url := ""
  comment_reactions := 0
  comment_replies := 0

/-- `FacebookScraperPipeline._clean_row`: for `post_message` and
`comment_text`, when the field is truthy, apply
`" ".join(str(v).split()).replace("\x00", "")`. -/
def clean_row (row : FBRow) : FBRow :=
  { row with
    post.post_message :=
      if ¬ row.post.post_message = "" then cleanRowText row.post.post_message
      else row.post.post_message
    comment.comment_text :=
      if ¬ row.comment.comment_text = "" then cleanRowText row.comment.comment_text
      else row.comment.comment_text }

/-- `FacebookScraperPipeline._clean_dataframe` applied to one row: the four
text columns get `fillna("").astype(str)` (a no-op on these string-valued
columns) and then NUL removal, whitespace collapse and strip. -/
def clean_dataframe_row (row : FBRow) : FBRow :=
  { row with
    post.post_message := cleanDfText row.post.post_message
    post.post_author_name := cleanDfText row.post.post_author_name
    comment.comment_text := cleanDfText row.comment.comment_text
    comment.comment_author_name := cleanDfText row.comment.comment_author_name }

/-- `FacebookScraperPipeline._clean_dataframe` on the whole DataFrame. -/
def clean_dataframe (df : List FBRow) : List FBRow :=
  df.map clean_dataframe_row

/-- The `rows` list built by `_process_and_save_final` (and, without
`_clean_row`, by `_save_raw_data`): one row per comment for a post whose
`comments` value is truthy, else a single row with `_empty_comment()`. -/
def final_rows (data : List FBPost) : List FBRow :=
  data.flatMap fun post =>
    match post.comments with
    | some (c :: cs) =>
      (c :: cs).map fun comment =>
        clean_row { post := flatten_post post, comment := flatten_comment comment }
    | _ => [clean_row { post := flatten_post post, comment := empty_comment }]

/-- The composite key of the Facebook dedup step
`df.drop_duplicates(subset=["post_id", "comment_id"], keep="first")`. -/
def fb_key (r : FBRow) : String × String := (r.post.post_id, r.comment.comment_id)

end FacebookScraperPipeline

/-! ## Derived columns (`_add_derived_columns`) -/

/-- Characters starting the haystack with the needle. -/
def startsWithChars : List Char → List Char → Bool
  | [], _ => true
  | _ :: _, [] => false
  | a :: as, b :: bs => a = b && startsWithChars as bs

/-- Replace every occurrence of `needle` (non-empty) in the list by `repl`,
modelling pandas `.str.replace(needle, repl)` with `regex=False` semantics
for a plain needle. -/
def replaceSub (needle repl : List Char) : List Char → List Char
  | [] => []
  | c :: rest =>
    if startsWithChars needle (c :: rest) ∧ 0 < needle.length then
      repl ++ replaceSub needle repl ((c :: rest).drop needle.length)
    else c :: replaceSub needle repl rest
termination_by l => l.length
decreasing_by
  · simp only [List.length_drop, List.length_cons]
    omega
  · simp

/-- `.str.replace("emoji_", "")` on a `String`. -/
def pyReplaceStr (needle repl s : String) : String :=
  ⟨replaceSub needle.data repl.data s.data⟩

/-- The fold behind `df[emoji_cols].idxmax(axis=1)`: keep the current best
(label, value) pair, replacing it only on a strictly greater value, so the
first column attaining the maximum wins — pandas `idxmax` semantics. -/
def idxmaxAux (best : String × Int) : List (String × Int) → String × Int
  | [] => best
  | p :: ps => idxmaxAux (if best.2 < p.2 then p else best) ps

/-- `idxmax` over a labelled row of values; the row of seven emoji columns
is never empty, and the `""` default is unreachable there. -/
def idxmax : List (String × Int) → String
  | [] => ""
  | p :: ps => (idxmaxAux p ps).1

theorem idxmaxAux_mem (best : String × Int) (l : List (String × Int)) :
    idxmaxAux best l ∈ best :: l := by
  induction l generalizing best with
  | nil => simp [idxmaxAux]
  | cons p ps ih =>
    simp only [idxmaxAux]
    by_cases hb : best.2 < p.2
    · simp only [if_pos hb]
      exact List.mem_cons_of_mem best (ih p)
    · simp only [if_neg hb]
      rcases List.mem_cons.mp (ih best) with h | h
      · rw [h]; exact List.mem_cons_self _ _
      · exact List.mem_cons_of_mem _ (List.mem_cons_of_mem _ h)

theorem idxmaxAux_le (best : String × Int) (l : List (String × Int)) :
    best.2 ≤ (idxmaxAux best l).2 ∧
      ∀ q ∈ l, q.2 ≤ (idxmaxAux best l).2 := by
  induction l generalizing best with
  | nil => simp [idxmaxAux]
  | cons p ps ih =>
    simp only [idxmaxAux]
    by_cases hb : best.2 < p.2
    · simp only [if_pos hb]
      obtain ⟨h1, h2⟩ := ih p
      refine ⟨le_trans (le_of_lt hb) h1, ?_⟩
      intro q hq
      rcases List.mem_cons.mp hq with rfl | hq
      · exact h1
      · exact h2 q hq
    · simp only [if_neg hb]
      obtain ⟨h1, h2⟩ := ih best
      refine ⟨h1, ?_⟩
      intro q hq
      rcases List.mem_cons.mp hq with rfl | hq
      · exact le_trans (le_of_not_lt hb) h1
      · exact h2 q hq

/-- `idxmax` on a non-empty labelled row returns the label of an entry
whose value is the maximum of the row. -/
theorem idxmax_spec (p : String × Int) (ps : List (String × Int)) :
    ∃ q ∈ p :: ps, idxmax (p :: ps) = q.1 ∧
      ∀ r ∈ p :: ps, r.2 ≤ q.2 := by
  refine ⟨idxmaxAux p ps, idxmaxAux_mem p ps, rfl, ?_⟩
  intro r hr
  rcases List.mem_cons.mp hr with h | hr
  · rw [h]; exact (idxmaxAux_le p ps).1
  · exact (idxmaxAux_le p ps).2 r hr

namespace FacebookScraperPipeline

/-- The `emoji_cols` list of `_add_derived_columns`, paired with the row's
values in column order.  The columns already hold integers
(`pd.to_numeric(...).fillna(0).astype(int)` is the identity on them). -/
def emoji_pairs (r : FBRow) : List (String × Int) :=
  [("emoji_like", r.post.emoji_like),
   ("emoji_love", r.post.emoji_love),
   ("emoji_haha", r.post.emoji_haha),
   ("emoji_wow", r.post.emoji_wow),
   ("emoji_sad", r.post.emoji_sad),
   ("emoji_angry", r.post.emoji_angry),
   ("emoji_care", r.post.emoji_care)]

/-- A row after `_add_derived_columns`: the original columns plus the
derived ones. -/
structure FBDerivedRow where
  row : FBRow
  post_message_length : Nat
  comment_text_length : Nat
  post_engagement_total : Int
  dominant_emotion : String
  positive_reactions : Int
  negative_reactions : Int
  sentiment_ratio : ℚ
deriving DecidableEq, Repr

/-- `FacebookScraperPipeline._add_derived_columns` on one row.  The
`sentiment_ratio` column is the guarded division (float division modelled
over `ℚ`)
`positive_reactions / post_total_reactions if post_total_reactions > 0 else 0`. -/
def add_derived_row (r : FBRow) : FBDerivedRow :=
  let positive : Int := r.post.emoji_like + r.post.emoji_love + r.post.emoji_haha
    + r.post.emoji_wow + r.post.emoji_care
  { row := r
    post_message_length := r.post.post_message.length
    comment_text_length := r.comment.comment_text.length
    post_engagement_total := r.post.post_total_reactions
      + r.post.post_total_comments + r.post.post_total_shares
    dominant_emotion := pyReplaceStr "emoji_" "" (idxmax (emoji_pairs r))
    positive_reactions := positive
    negative_reactions := r.post.emoji_sad + r.post.emoji_angry
    sentiment_ratio :=
      if 0 < r.post.post_total_reactions then
        (positive : ℚ) / (r.post.post_total_reactions : ℚ)
      else 0 }

/-- `_add_derived_columns` on the whole DataFrame (each derived column is
computed row-wise: the sums, `idxmax(axis=1)` and `df.apply(..., axis=1)`). -/
def add_derived_columns (df : List FBRow) : List FBDerivedRow :=
  df.map add_derived_row

end FacebookScraperPipeline

/-! ## Sentiment analyzers -/

/-- A classifier outcome: label plus confidence score (float modelled as ℚ). -/
structure SentResult where
  label : String
  score : ℚ
deriving DecidableEq, Repr

/-- The `{"label": "NEUTRAL", "score": 0.0}` fallback result. -/
def neutralResult : SentResult := ⟨"NEUTRAL", 0⟩

/-- The pretrained classifier as an oracle: `none` models
`self.analyzer(...)` raising an exception, `some r` a normal return of
`[r]`. -/
def SentOracle := String → Option SentResult

namespace SentimentAnalyzer

/-- One iteration of the loops in
`SentimentAnalyzer.analyze_posts_and_comments` (`src/sentiment_facebook.py`):
the text arrives via `fillna("").astype(str)`, is skipped when blank or
`"nan"`, and any classifier exception falls back to NEUTRAL/0.0. -/
def analyze_elem (o : SentOracle) (text : String) : SentResult :=
  if pyStripStr text = "" ∨ text = "nan" then neutralResult
  else
    match o (pyTake 512 text) with
    | some r => r
    | none => neutralResult

end SentimentAnalyzer

namespace InstagramSentimentAnalyzer

/-- One iteration of `InstagramSentimentAnalyzer.analyze_text_batch`
(`src/sentiment_insta.py`): `pd.isna(text)` (modelled by `none`), blank
and `"nan"` texts are skipped; classifier exceptions fall back. -/
def batch_elem (o : SentOracle) : Option String → SentResult
  | none => neutralResult
  | some s =>
    if pyStripStr s = "" ∨ s = "nan" then neutralResult
    else
      match o (pyTake 512 s) with
      | some r => r
      | none => neutralResult

/-- `InstagramSentimentAnalyzer.analyze_text_batch`: one result appended
per input text, in order. -/
def analyze_text_batch (o : SentOracle) (texts : List (Option String)) :
    List SentResult :=
  texts.map (batch_elem o)

end InstagramSentimentAnalyzer

namespace TwitterSentimentAnalyzer

/-- One iteration of `TwitterSentimentAnalyzer.analyze_text_batch`
(`src/sentiment_twitter.py`); the code is identical to the Instagram
version. -/
def batch_elem (o : SentOracle) : Option String → SentResult
  | none => neutralResult
  | some s =>
    if pyStripStr s = "" ∨ s = "nan" then neutralResult
    else
      match o (pyTake 512 s) with
      | some r => r
      | none => neutralResult

/-- `TwitterSentimentAnalyzer.analyze_text_batch`. -/
def analyze_text_batch (o : SentOracle) (texts : List (Option String)) :
    List SentResult :=
  texts.map (batch_elem o)

end TwitterSentimentAnalyzer

/-! ## Instagram post-URL pipeline (`InstagramScraperPipeline.scrape_post_urls`) -/

/-- A comment inside `item["latestComments"]`; the nested `owner` / `user`
dicts default to `{}` so their lookups are flattened into optional fields. -/
structure InstaComment where
  id : Option String
  pk : Option String
  text : Option String
  owner_username : Option String
  user_username : Option String
  ownerUsername : Option String
  owner_full_name : Option String
  user_full_name : Option String
  likesCount : Option Int
  comment_like_count : Option Int
  timestamp : Option String
  created_at : Option String
  repliesCount : Option Int
  child_comment_count : Option Int
deriving DecidableEq, Repr

/-- An item returned by the Instagram post-details actor.  The field
`latestComments` is `none` when the key `"latestComments"` is absent. -/
structure InstaItem where
  url : Option String
  inputUrl : Option String
  shortCode : Option String
  id : Option String
  ownerUsername : Option String
  ownerFullName : Option String
  caption : Option String
  likesCount : Option Int
  commentsCount : Option Int
  timestamp : Option String
  post_type : Option String
  videoViewCount : Option Int
  videoPlayCount : Option Int
  latestComments : Option (List InstaComment)
deriving DecidableEq, Repr

/-- A unified record of `scrape_post_urls` (the `base_record` merged with
the comment fields, or with the all-`None` comment fields). -/
structure InstaRow where
  source_type : String
  source_value : Option String
  post_url : Option String
  post_username : Option String
  post_full_name : Option String
  post_caption : Option String
  post_likes : Option Int
  post_comments_count : Option Int
  post_date : Option String
  post_type : Option String
  post_video_views : Option Int
  post_video_plays : Option Int
  comment_id : Option String
  comment_text : Option String
  comment_username : Option String
  comment_full_name : Option String
  comment_likes : Option Int
  comment_date : Option String
  comment_replies_count : Option Int
deriving DecidableEq, Repr

namespace InstagramScraperPipeline

/-- Python's `a or b` on optional integers (`None` and `0` are falsy). -/
def pyOrInt (a b : Option Int) : Option Int :=
  match a with
  | some n => if ¬ n = 0 then some n else b
  | none => b

/-- `"instagram.com" in post_url`: substring containment. -/
def containsChars (needle : List Char) : List Char → Bool
  | [] => startsWithChars needle []
  | c :: t => startsWithChars needle (c :: t) || containsChars needle t

/-- The `post_url` normalisation at the top of the `for item in post_items`
loop of `scrape_post_urls`. -/
def normalize_post_url (item : InstaItem) : Option String :=
  let post_url := pyOr item.url item.inputUrl
  let shortcode := pyOr item.shortCode item.id
  if ¬ truthy post_url ∧ truthy shortcode then
    some ("https://www.instagram.com/p/" ++ shortcode.getD "" ++ "/")
  else if truthy post_url ∧
      ¬ containsChars "instagram.com".data (post_url.getD "").data then
    some ("https://www.instagram.com/p/" ++ post_url.getD "" ++ "/")
  else post_url

/-- The `base_record` dict of `scrape_post_urls` without comment fields. -/
def base_record (item : InstaItem) (post_url : Option String)
    (comment : Option InstaComment) : InstaRow :=
  { source_type := "post_url"
    source_value := post_url
    post_url := post_url
    post_username := item.ownerUsername
    post_full_name := item.ownerFullName
    post_caption := item.caption
    post_likes := item.likesCount
    post_comments_count := item.commentsCount
    post_date := item.timestamp
    post_type := item.post_type
    post_video_views := item.videoViewCount
    post_video_plays := item.videoPlayCount
    comment_id := comment.bind fun c => pyOr c.id c.pk
    comment_text := comment.bind fun c => c.text
    comment_username := comment.bind fun c =>
      pyOr (pyOr c.owner_username c.user_username) c.ownerUsername
    comment_full_name := comment.bind fun c =>
      pyOr c.owner_full_name c.user_full_name
    comment_likes := comment.bind fun c =>
      pyOrInt c.likesCount c.comment_like_count
    comment_date := comment.bind fun c => pyOr c.timestamp c.created_at
    comment_replies_count := comment.bind fun c =>
      pyOrInt c.repliesCount c.child_comment_count }

/-- The `unified_records` list of `scrape_post_urls`: for each item, one
record per comment in `latestComments[:max_comments]` when that slice is
non-empty (and comments are included), else one record with all-`None`
comment fields. -/
def unified_records (include_comments : Bool) (max_comments : Nat)
    (post_items : List InstaItem) : List InstaRow :=
  post_items.flatMap fun item =>
    let post_url := normalize_post_url item
    let comments :=
      if include_comments ∧ item.latestComments.isSome then
        (item.latestComments.getD []).take max_comments
      else []
    match comments with
    | [] => [base_record item post_url none]
    | c :: cs => (c :: cs).map fun comment => base_record item post_url (some comment)

/-- The composite key of
`df.drop_duplicates(subset=["post_url", "comment_id"], keep="first")`;
pandas treats `NaN` keys as equal for deduplication, matching equality on
`Option`. -/
def insta_key (r : InstaRow) : Option String × Option String :=
  (r.post_url, r.comment_id)

/-- The DataFrame returned by `scrape_post_urls` once items were processed:
`pd.DataFrame(unified_records)` deduplicated on (post_url, comment_id).
The guard `"comment_id" in df.columns` holds whenever the record list is
non-empty (every record carries the key); on an empty record list the
dedup is skipped, which is also the identity there. -/
def scrape_post_urls_df (include_comments : Bool) (max_comments : Nat)
    (post_items : List InstaItem) : List InstaRow :=
  let df := unified_records include_comments max_comments post_items
  match df with
  | [] => df
  | _ :: _ => dropDuplicatesBy insta_key df

end InstagramScraperPipeline

/-! ## Twitter pipeline (`TwitterScraperPipeline`) -/

/-- The nested `user` dict of the profile info (read with `.get`, default
`{}` whose lookups all yield `None`). -/
structure TwUser where
  avatar : Option String
  username : Option String
  userFullName : Option String
  url : Option String
  totalFollowers : Option Int
deriving DecidableEq, Repr

/-- The all-`None` user: the `.get("user", {})` default. -/
def emptyTwUser : TwUser := ⟨none, none, none, none, none⟩

/-- The `profile_info` dict built by `_fetch_profile_info` (or `{}` on
failure; every field is then `none`). -/
structure TwProfileInfo where
  user : Option TwUser
  tweet_url : Option String
  tweet_text : Option String
deriving DecidableEq, Repr

/-- A reply dict built by `_scrape_replies`. -/
structure TwReply where
  tweet_id : Option String
  text : Option String
  created_at : Option String
  author_username : Option String
  author_name : Option String
  author_verified : Option Bool
  author_followers : Option Int
  retweet_count : Option Int
  reply_count : Option Int
  like_count : Option Int
  quote_count : Option Int
  tweet_url : Option String
deriving DecidableEq, Repr

/-- A retweeter dict built by `_scrape_retweeters`. -/
structure TwRetweeter where
  userName : Option String
  name : Option String
  isVerified : Option Bool
  followers : Option Int
  following : Option Int
deriving DecidableEq, Repr

/-- One element of `all_data` assembled by `scrape_from_user`. -/
structure TweetData where
  tweet_id : String
  profile_info : TwProfileInfo
  replies : List TwReply
  retweeters : List TwRetweeter
deriving DecidableEq, Repr

/-- One row of the Twitter final table (`_process_and_save_final`). -/
structure TwRow where
  tweet_id : String
  interaction_type : String
  username : Option String
  name : Option String
  verified : Option Bool
  followers : Option Int
  text : Option String
  reply_url : Option String
  tweet_text : String
  profile_username : Option String
  profile_fullname : Option String
  profile_followers : Option Int
  profile_url : String
  tweet_url : String
  retweet_count : Option Int
  reply_count : Option Int
  like_count : Option Int
  quote_count : Option Int
  created_at : Option String
deriving DecidableEq, Repr

namespace TwitterScraperPipeline

/-- A reply row appended by the `for r in replies_list` loop. -/
def reply_row (tid : String) (profile : TwUser) (tweet_link profile_link
    main_tweet_text : String) (r : TwReply) : TwRow :=
  { tweet_id := tid
    interaction_type := "reply"
    username := r.author_username
    name := r.author_name
    verified := r.author_verified
    followers := r.author_followers
    text := r.text
    reply_url := r.tweet_url
    tweet_text := main_tweet_text
    profile_username := profile.username
    profile_fullname := profile.userFullName
    profile_followers := profile.totalFollowers
    profile_url := profile_link
    tweet_url := tweet_link
    retweet_count := r.retweet_count
    reply_count := r.reply_count
    like_count := r.like_count
    quote_count := r.quote_count
    created_at := r.created_at }

/-- A retweeter row appended by the `for r in retweeters_list` loop. -/
def retweeter_row (tid : String) (profile : TwUser) (tweet_link profile_link
    main_tweet_text : String) (r : TwRetweeter) : TwRow :=
  { tweet_id := tid
    interaction_type := "retweeter"
    username := r.userName
    name := r.name
    verified := r.isVerified
    followers := r.followers
    text := some ""
    reply_url := some ""
    tweet_text := main_tweet_text
    profile_username := profile.username
    profile_fullname := profile.userFullName
    profile_followers := profile.totalFollowers
    profile_url := profile_link
    tweet_url := tweet_link
    retweet_count := none
    reply_count := none
    like_count := none
    quote_count := none
    created_at := none }

/-- The `rows` list of `TwitterScraperPipeline._process_and_save_final`:
for each tweet, the first reply is consumed as the main tweet text (when
replies exist), then one row per remaining reply and one per retweeter.
No deduplication is performed anywhere in this function. -/
def final_rows (data : List TweetData) : List TwRow :=
  data.flatMap fun td =>
    let profile := td.profile_info.user.getD emptyTwUser
    let tweet_link := td.profile_info.tweet_url.getD ""
    let profile_link := profile.url.getD ""
    match td.replies with
    | [] =>
      let main_tweet_text := td.profile_info.tweet_text.getD ""
      td.retweeters.map
        (retweeter_row td.tweet_id profile tweet_link profile_link main_tweet_text)
    | r0 :: rest =>
      let main_tweet_text := r0.text.getD ""
      rest.map
        (reply_row td.tweet_id profile tweet_link profile_link main_tweet_text)
      ++ td.retweeters.map
        (retweeter_row td.tweet_id profile tweet_link profile_link main_tweet_text)

/-- A Twitter row with the four sentiment columns added by
`TwitterSentimentAnalyzer.analyze_twitter_data`. -/
structure TwFinalRow where
  row : TwRow
  tweet_sentiment_label : String
  tweet_sentiment_score : ℚ
  interaction_sentiment_label : String
  interaction_sentiment_score : ℚ
deriving DecidableEq, Repr

/-- `analyze_twitter_data` on one row: the main tweet text is classified
for every row; the interaction text only on rows with
`interaction_type == "reply"`, the rest keep the NEUTRAL/0.0 initial
value.  Both columns go through `fillna("").astype(str)` first. -/
def analyze_row (o : SentOracle) (r : TwRow) : TwFinalRow :=
  let ts := TwitterSentimentAnalyzer.batch_elem o (some r.tweet_text)
  let is :=
    if r.interaction_type = "reply" then
      TwitterSentimentAnalyzer.batch_elem o (some (r.text.getD ""))
    else neutralResult
  { row := r
    tweet_sentiment_label := ts.label
    tweet_sentiment_score := ts.score
    interaction_sentiment_label := is.label
    interaction_sentiment_score := is.score }

/-- The DataFrame written to the final CSV by `_process_and_save_final`
(on the non-empty path where a CSV is written at all): the flattened rows
with sentiment columns added; there is no `drop_duplicates` call. -/
def final_df (o : SentOracle) (data : List TweetData) : List TwFinalRow :=
  (final_rows data).map (analyze_row o)

/-- The composite (tweet id, interaction identity) key of claim C2. -/
def tw_key (r : TwFinalRow) : String × String × Option String :=
  (r.row.tweet_id, r.row.interaction_type, r.row.username)

end TwitterScraperPipeline

/-! ## Apify actor helpers (error handling and retries) -/

/-- The run object returned by `client.actor(actor_id).call(...)` when it is
a dict: only the `defaultDatasetId` key is read by this repository (`none`
models both a missing key and an empty dict). -/
structure ApifyRunDict where
  defaultDatasetId : Option String
deriving DecidableEq, Repr

/-- A raw item of the Facebook comments actor's dataset, as read by the
`for item in items` loop of `_scrape_comments`. -/
structure FBRawCommentItem where
  id : Option String
  facebookId : Option String
  text : Option String
  date : Option String
  profileUrl : Option String
  profileName : Option String
  profilePicture : Option String
  likesCount : Option Int
  commentsCount : Option Int
deriving DecidableEq, Repr

namespace FacebookScraperPipeline

/-- The `run_input` dict of `_scrape_comments` (with its `comments_limit`
fallback to 100 for a non-positive limit). -/
structure FBCommentsRunInput where
  url : String
  resultsLimit : Int
  includeNestedComments : Bool
deriving DecidableEq, Repr

/-- `run_input` as built by `_scrape_comments`. -/
def comments_run_input (post_url : Option String) (max_comments : Int) :
    FBCommentsRunInput :=
  { url := post_url.getD ""
    resultsLimit := if 0 < max_comments then max_comments else 100
    includeNestedComments := true }

/-- The external behaviour seen by `_scrape_comments`. -/
structure FBCommentsEnv where
  call : FBCommentsRunInput → Except Unit (Option ApifyRunDict)
  iterate : String → Except Unit (List FBRawCommentItem)

/-- The comment dict appended for each dataset item. -/
def comment_of_item (item : FBRawCommentItem) : FBComment :=
  { comment_id := some (item.id.getD "")
    text := some (item.text.getD "")
    timestamp := some (item.date.getD "")
    author_id := some (item.profileUrl.getD "")
    author_name := some (item.profileName.getD "")
    author_url := some (item.profileUrl.getD "")
    reactions_count := some (item.likesCount.getD 0)
    replies_count := some (item.commentsCount.getD 0) }

/-- `FacebookScraperPipeline._scrape_comments`, instrumented with the
number of actor-call attempts made (second component).  Every failure path
(`except` around the call, a falsy run or missing `defaultDatasetId`,
`except` around the dataset iteration) returns the empty list. -/
def scrape_comments (env : FBCommentsEnv) (post_url : Option String)
    (max_comments : Int) : List FBComment × Nat :=
  if ¬ truthy post_url ∨ pyStripStr (post_url.getD "") = "" then ([], 0)
  else
    match env.call (comments_run_input post_url max_comments) with
    | .error _ => ([], 1)
    | .ok none => ([], 1)
    | .ok (some run) =>
      match run.defaultDatasetId with
      | none => ([], 1)
      | some dsid =>
        match env.iterate dsid with
        | .error _ => ([], 1)
        | .ok items => (items.map comment_of_item, 1)

/-- The comment-scraping loop of `scrape_from_url`: each post gets its
`comments` key set to whatever `_scrape_comments` returned, and the loop
continues to the next post. -/
def attach_comments (env : FBCommentsEnv) (max_comments_per_post : Int)
    (posts : List FBPost) : List FBPost :=
  posts.map fun post =>
    { post with
      comments := some (scrape_comments env (some (post.url.getD ""))
        max_comments_per_post).1 }

end FacebookScraperPipeline

namespace InstagramScraperPipeline

/-- The external behaviour seen by one invocation of `_run_apify_actor`:
one call / iteration outcome per attempt number. -/
structure InstaActorEnv (α : Type) where
  call : Nat → Except Unit (Option ApifyRunDict)
  iterate : Nat → String → Except Unit (List α)

/-- What one attempt of the retry loop of `_run_apify_actor` does:
`failed` models an exception caught by the `except` (from the call, from
`run.get` on a `None` run, or from the dataset iteration, all inside the
`try`); `done items` models the `return` statements. -/
inductive AttemptOutcome (α : Type)
  | done (items : List α)
  | failed
deriving DecidableEq, Repr

/-- One attempt of `_run_apify_actor`: a falsy `dataset_id` returns `[]`
immediately; exceptions anywhere in the `try` body fail the attempt. -/
def run_attempt {α : Type} (env : InstaActorEnv α) (attempt : Nat) :
    AttemptOutcome α :=
  match env.call attempt with
  | .error _ => .failed
  | .ok none => .failed
  | .ok (some run) =>
    match run.defaultDatasetId with
    | none => .done []
    | some d =>
      if d = "" then .done []
      else
        match env.iterate attempt d with
        | .error _ => .failed
        | .ok items => .done items

/-- `InstagramScraperPipeline._run_apify_actor`: `for attempt in
range(1, 4)`, returning on success and returning `[]` when the third
attempt also fails.  Instrumented with the number of attempts made. -/
def run_apify_actor {α : Type} (env : InstaActorEnv α) : List α × Nat :=
  match run_attempt env 1 with
  | .done items => (items, 1)
  | .failed =>
    match run_attempt env 2 with
    | .done items => (items, 2)
    | .failed =>
      match run_attempt env 3 with
      | .done items => (items, 3)
      | .failed => ([], 3)

end InstagramScraperPipeline

namespace TwitterScraperPipeline

/-- The external behaviour seen by one invocation of
`_run_actor_and_get_items`. -/
structure TwActorEnv (α : Type) where
  call : Except Unit (Option ApifyRunDict)
  iterate : String → Except Unit (List α)

/-- `TwitterScraperPipeline._run_actor_and_get_items`, instrumented with
the number of actor-call attempts.  Only the call and the dataset
iteration sit in `try` blocks; `run.get("defaultDatasetId")` on a `None`
run would raise an uncaught `AttributeError`, modelled by the
`Except.error` result. -/
def run_actor_and_get_items {α : Type} (env : TwActorEnv α) :
    Except Unit (List α) × Nat :=
  match env.call with
  | .error _ => (.ok [], 1)
  | .ok none => (.error (), 1)
  | .ok (some run) =>
    match run.defaultDatasetId with
    | none => (.ok [], 1)
    | some d =>
      if d = "" then (.ok [], 1)
      else
        match env.iterate d with
        | .error _ => (.ok [], 1)
        | .ok items => (.ok items, 1)

end TwitterScraperPipeline

/-! ## Properties of the text-cleaning primitives -/

theorem pySplitAux_words_valid (l : List Char) :
    ∀ acc, (∀ c ∈ acc, ¬ pyIsSpace c) →
      ∀ w ∈ pySplitAux l acc, w ≠ [] ∧ ∀ c ∈ w, ¬ pyIsSpace c := by
  induction l with
  | nil =>
    intro acc hacc w hw
    match acc, hw with
    | a :: as, hw =>
      simp only [pySplitAux, List.mem_singleton] at hw
      subst hw
      refine ⟨by simp, ?_⟩
      intro c hc
      exact hacc c (List.mem_reverse.mp hc)
  | cons c cs ih =>
    intro acc hacc w hw
    by_cases hsp : pyIsSpace c
    · simp only [pySplitAux, if_pos hsp] at hw
      match acc, hw with
      | [], hw => exact ih [] (by simp) w hw
      | a :: as, hw =>
        rcases List.mem_cons.mp hw with rfl | hw
        · refine ⟨by simp, ?_⟩
          intro d hd
          exact hacc d (List.mem_reverse.mp hd)
        · exact ih [] (by simp) w hw
    · simp only [pySplitAux, if_neg hsp] at hw
      refine ih (c :: acc) ?_ w hw
      intro d hd
      rcases List.mem_cons.mp hd with rfl | hd
      · exact hsp
      · exact hacc d hd

/-- Splitting a string that starts with a whitespace-free block `w`
pushes `w` onto the accumulator. -/
theorem pySplitAux_append (w : List Char) (hw : ∀ c ∈ w, ¬ pyIsSpace c) :
    ∀ (l acc : List Char),
      pySplitAux (w ++ l) acc = pySplitAux l (w.reverse ++ acc) := by
  induction w with
  | nil => intro l acc; simp
  | cons a as ih =>
    intro l acc
    have ha : ¬ pyIsSpace a := hw a (by simp)
    have has : ∀ c ∈ as, ¬ pyIsSpace c := fun c hc => hw c (by simp [hc])
    simp only [List.cons_append, pySplitAux, if_neg ha, List.append_eq]
    rw [ih has l (a :: acc)]
    simp

/-- `" ".join(ws).split()` recovers `ws` when every word is non-empty and
whitespace-free (as the words produced by `split()` always are). -/
theorem splitWords_joinWords (ws : List (List Char))
    (h : ∀ w ∈ ws, w ≠ [] ∧ ∀ c ∈ w, ¬ pyIsSpace c) :
    splitWords (joinWords ws) = ws := by
  induction ws with
  | nil => rfl
  | cons w ws ih =>
    obtain ⟨hne, hnsp⟩ := h w (by simp)
    obtain ⟨b, bs, hb⟩ := List.exists_cons_of_ne_nil
      (show w.reverse ≠ [] by simpa using hne)
    match ws with
    | [] =>
      have h1 := pySplitAux_append w hnsp [] []
      simp only [List.append_nil] at h1
      show pySplitAux w [] = [w]
      rw [h1, hb]
      show [(b :: bs).reverse] = [w]
      rw [← hb, List.reverse_reverse]
    | w' :: ws' =>
      have hrest : ∀ v ∈ w' :: ws', v ≠ [] ∧ ∀ c ∈ v, ¬ pyIsSpace c :=
        fun v hv => h v (List.mem_cons_of_mem _ hv)
      show pySplitAux (w ++ ' ' :: joinWords (w' :: ws')) [] = w :: w' :: ws'
      rw [pySplitAux_append w hnsp _ []]
      simp only [List.append_nil]
      rw [hb]
      show (b :: bs).reverse :: pySplitAux (joinWords (w' :: ws')) [] =
        w :: w' :: ws'
      rw [← hb, List.reverse_reverse]
      exact congrArg _ (ih hrest)

/-- Every character of `" ".join(ws)` is a space or a character of a word. -/
theorem mem_joinWords (ws : List (List Char)) (c : Char)
    (hc : c ∈ joinWords ws) : c = ' ' ∨ ∃ w ∈ ws, c ∈ w := by
  induction ws with
  | nil => simp [joinWords] at hc
  | cons w ws ih =>
    match ws with
    | [] =>
      right
      exact ⟨w, by simp, hc⟩
    | w' :: ws' =>
      simp only [joinWords, List.mem_append, List.mem_cons] at hc
      rcases hc with hc | hc | hc
      · exact Or.inr ⟨w, by simp, hc⟩
      · exact Or.inl hc
      · rcases ih hc with h | ⟨v, hv, hcv⟩
        · exact Or.inl h
        · exact Or.inr ⟨v, List.mem_cons_of_mem _ hv, hcv⟩

/-- Every character of a word of `pySplitAux l acc` comes from `l` or `acc`. -/
theorem mem_pySplitAux_chars (l : List Char) :
    ∀ acc w, w ∈ pySplitAux l acc → ∀ c ∈ w, c ∈ l ∨ c ∈ acc := by
  induction l with
  | nil =>
    intro acc w hw c hc
    match acc, hw with
    | a :: as, hw =>
      simp only [pySplitAux, List.mem_singleton] at hw
      subst hw
      exact Or.inr (List.mem_reverse.mp hc)
  | cons x xs ih =>
    intro acc w hw c hc
    by_cases hsp : pyIsSpace x
    · simp only [pySplitAux, if_pos hsp] at hw
      match acc, hw with
      | [], hw =>
        rcases ih [] w hw c hc with h | h
        · exact Or.inl (List.mem_cons_of_mem _ h)
        · simp at h
      | a :: as, hw =>
        rcases List.mem_cons.mp hw with rfl | hw
        · exact Or.inr (List.mem_reverse.mp hc)
        · rcases ih [] w hw c hc with h | h
          · exact Or.inl (List.mem_cons_of_mem _ h)
          · simp at h
    · simp only [pySplitAux, if_neg hsp] at hw
      rcases ih (x :: acc) w hw c hc with h | h
      · exact Or.inl (List.mem_cons_of_mem _ h)
      · rcases List.mem_cons.mp h with rfl | h
        · exact Or.inl (List.mem_cons_self _ _)
        · exact Or.inr h

/-- All whitespace characters of `l` are plain spaces. -/
def allWsSpace (l : List Char) : Prop := ∀ c ∈ l, pyIsSpace c → c = ' '

/-- No two adjacent whitespace characters. -/
def noAdjWs (l : List Char) : Prop :=
  l.Chain' (fun a b => ¬ (pyIsSpace a ∧ pyIsSpace b))

/-- The head (if any) is not whitespace. -/
def headNotWs (l : List Char) : Prop := ∀ c ∈ l.head?, ¬ pyIsSpace c

/-- The last character (if any) is not whitespace. -/
def lastNotWs (l : List Char) : Prop := ∀ c ∈ l.getLast?, ¬ pyIsSpace c

theorem collapseAux_headNotWs (l : List Char) : headNotWs (collapseAux l true) := by
  induction l with
  | nil => intro c hc; simp [collapseAux] at hc
  | cons a as ih =>
    by_cases hsp : pyIsSpace a
    · simpa only [collapseAux, if_pos hsp, if_pos rfl] using ih
    · intro c hc
      simp only [collapseAux, if_neg hsp, List.head?_cons, Option.mem_def,
        Option.some.injEq] at hc
      subst hc
      exact hsp

theorem collapseAux_allWsSpace (l : List Char) :
    ∀ b, allWsSpace (collapseAux l b) := by
  induction l with
  | nil => intro b c hc; simp [collapseAux] at hc
  | cons a as ih =>
    intro b c hc
    by_cases hsp : pyIsSpace a
    · by_cases hb : b = true
      · subst hb
        simp only [collapseAux, if_pos hsp, if_pos rfl] at hc
        exact ih true c hc
      · have hb' : b = false := by cases b <;> simp_all
        subst hb'
        simp only [collapseAux, if_pos hsp, Bool.false_eq_true, if_neg] at hc
        rcases List.mem_cons.mp hc with rfl | hc
        · intro; rfl
        · exact ih true c hc
    · simp only [collapseAux, if_neg hsp] at hc
      rcases List.mem_cons.mp hc with rfl | hc
      · intro h; exact absurd h hsp
      · exact ih false c hc

theorem collapseAux_noAdjWs (l : List Char) : ∀ b, noAdjWs (collapseAux l b) := by
  induction l with
  | nil => intro b; simp [collapseAux, noAdjWs]
  | cons a as ih =>
    intro b
    by_cases hsp : pyIsSpace a
    · by_cases hb : b = true
      · subst hb
        simpa only [collapseAux, if_pos hsp, if_pos rfl] using ih true
      · have hb' : b = false := by cases b <;> simp_all
        subst hb'
        simp only [collapseAux, if_pos hsp, Bool.false_eq_true, if_false]
        rw [noAdjWs, List.chain'_cons']
        refine ⟨?_, ih true⟩
        intro y hy hcon
        exact collapseAux_headNotWs as y hy hcon.2
    · simp only [collapseAux, if_neg hsp]
      rw [noAdjWs, List.chain'_cons']
      refine ⟨?_, ih false⟩
      intro y _ hcon
      exact hsp hcon.1

/-- A canonical list (space-only whitespace, no adjacent whitespace, and a
non-whitespace head when the flag demands it) is a fixed point of the
collapse. -/
theorem collapseAux_eq_self (l : List Char) :
    ∀ b, allWsSpace l → noAdjWs l → (b = true → headNotWs l) →
      collapseAux l b = l := by
  induction l with
  | nil => intro b _ _ _; rfl
  | cons a as ih =>
    intro b h1 h2 h3
    have h1' : allWsSpace as := fun c hc => h1 c (List.mem_cons_of_mem _ hc)
    have h2' : noAdjWs as := List.Chain'.tail h2
    by_cases hsp : pyIsSpace a
    · have hb : b = false := by
        cases b with
        | false => rfl
        | true => exact absurd hsp (h3 rfl a (by simp))
      subst hb
      have ha : a = ' ' := h1 a (by simp) hsp
      have hhead : headNotWs as := by
        intro c hc hcsp
        have := (List.chain'_cons'.mp h2).1 c hc
        exact this ⟨hsp, hcsp⟩
      simp only [collapseAux, if_pos hsp, Bool.false_eq_true, if_false]
      rw [ih true h1' h2' (fun _ => hhead), ha]
    · simp only [collapseAux, if_neg hsp]
      rw [ih false h1' h2' (by simp)]

/-- Characters of the collapse come from the input or are spaces. -/
theorem mem_collapseAux (l : List Char) :
    ∀ b c, c ∈ collapseAux l b → c = ' ' ∨ c ∈ l := by
  induction l with
  | nil => intro b c hc; simp [collapseAux] at hc
  | cons a as ih =>
    intro b c hc
    by_cases hsp : pyIsSpace a
    · by_cases hb : b = true
      · subst hb
        simp only [collapseAux, if_pos hsp, if_pos rfl] at hc
        rcases ih true c hc with h | h
        · exact Or.inl h
        · exact Or.inr (List.mem_cons_of_mem _ h)
      · have hb' : b = false := by cases b <;> simp_all
        subst hb'
        simp only [collapseAux, if_pos hsp, Bool.false_eq_true, if_neg] at hc
        rcases List.mem_cons.mp hc with rfl | hc
        · exact Or.inl rfl
        · rcases ih true c hc with h | h
          · exact Or.inl h
          · exact Or.inr (List.mem_cons_of_mem _ h)
    · simp only [collapseAux, if_neg hsp] at hc
      rcases List.mem_cons.mp hc with rfl | hc
      · exact Or.inr (List.mem_cons_self _ _)
      · rcases ih false c hc with h | h
        · exact Or.inl h
        · exact Or.inr (List.mem_cons_of_mem _ h)

theorem headNotWs_dropWhile (l : List Char) :
    headNotWs (l.dropWhile pyIsSpace) := by
  induction l with
  | nil => intro c hc; simp at hc
  | cons a as ih =>
    by_cases hsp : pyIsSpace a
    · simpa only [List.dropWhile_cons, if_pos hsp] using ih
    · intro c hc
      simp only [List.dropWhile_cons, if_neg hsp, List.head?_cons,
        Option.mem_def, Option.some.injEq] at hc
      subst hc
      exact hsp

theorem lastNotWs_dropWhile (l : List Char) (h : lastNotWs l) :
    lastNotWs (l.dropWhile pyIsSpace) := by
  induction l with
  | nil => simpa using h
  | cons a as ih =>
    by_cases hsp : pyIsSpace a
    · rw [List.dropWhile_cons, if_pos hsp]
      match as with
      | [] => exact absurd hsp (by simpa [lastNotWs] using h)
      | a' :: as' =>
        refine ih ?_
        intro c hc
        refine h c ?_
        rwa [List.getLast?_cons_cons]
    · rwa [List.dropWhile_cons, if_neg hsp]

theorem dropWhile_eq_self_of_headNotWs (l : List Char) (h : headNotWs l) :
    l.dropWhile pyIsSpace = l := by
  match l with
  | [] => rfl
  | a :: as =>
    have := h a (by simp)
    rw [List.dropWhile_cons, if_neg this]

theorem headNotWs_pyStripChars (l : List Char) : headNotWs (pyStripChars l) := by
  intro c hc
  rw [pyStripChars, List.head?_reverse] at hc
  have h1 : lastNotWs (l.dropWhile pyIsSpace).reverse := by
    intro d hd
    rw [List.getLast?_reverse] at hd
    exact headNotWs_dropWhile l d hd
  exact lastNotWs_dropWhile _ h1 c hc

theorem lastNotWs_pyStripChars (l : List Char) : lastNotWs (pyStripChars l) := by
  intro c hc
  rw [pyStripChars, List.getLast?_reverse] at hc
  exact headNotWs_dropWhile _ c hc

theorem pyStripChars_eq_self (l : List Char) (h1 : headNotWs l)
    (h2 : lastNotWs l) : pyStripChars l = l := by
  rw [pyStripChars, dropWhile_eq_self_of_headNotWs l h1,
    dropWhile_eq_self_of_headNotWs, List.reverse_reverse]
  intro c hc
  rw [List.head?_reverse] at hc
  exact h2 c hc

theorem mem_pyStripChars (l : List Char) (c : Char) (hc : c ∈ pyStripChars l) :
    c ∈ l := by
  rw [pyStripChars, List.mem_reverse] at hc
  have h1 := (List.dropWhile_suffix (l := (l.dropWhile pyIsSpace).reverse)
    pyIsSpace).sublist.subset hc
  rw [List.mem_reverse] at h1
  exact (List.dropWhile_suffix pyIsSpace).sublist.subset h1

theorem allWsSpace_pyStripChars (l : List Char) (h : allWsSpace l) :
    allWsSpace (pyStripChars l) :=
  fun c hc => h c (mem_pyStripChars l c hc)

theorem noAdjWs_reverse (l : List Char) (h : noAdjWs l) : noAdjWs l.reverse := by
  rw [noAdjWs, List.chain'_reverse]
  exact h.imp fun a b hab hcon => hab ⟨hcon.2, hcon.1⟩

theorem noAdjWs_pyStripChars (l : List Char) (h : noAdjWs l) :
    noAdjWs (pyStripChars l) := by
  refine noAdjWs_reverse _ ?_
  refine List.Chain'.suffix ?_ (List.dropWhile_suffix pyIsSpace)
  refine noAdjWs_reverse _ ?_
  exact List.Chain'.suffix h (List.dropWhile_suffix pyIsSpace)

/-- `cleanDfText` (NUL removal, whitespace collapse, strip — in that
order) is idempotent. -/
theorem cleanDfText_idem (s : String) :
    cleanDfText (cleanDfText s) = cleanDfText s := by
  rw [cleanDfText, cleanDfText]
  apply congrArg String.mk
  set l := s.data with hl
  set t := pyStripChars (collapseWs (removeNul l)) with ht
  show pyStripChars (collapseWs (removeNul (String.mk t).data)) = t
  have hdata : (String.mk t).data = t := rfl
  rw [hdata]
  have hnonul : removeNul t = t := by
    rw [removeNul, List.filter_eq_self]
    intro c hc
    have h1 := mem_pyStripChars _ c hc
    rcases mem_collapseAux _ _ c h1 with h | h
    · subst h; decide
    · rw [removeNul, List.mem_filter] at h
      exact h.2
  rw [hnonul]
  have hcoll : collapseWs t = t := by
    rw [collapseWs]
    refine collapseAux_eq_self t false ?_ ?_ (by simp)
    · exact allWsSpace_pyStripChars _ (collapseAux_allWsSpace _ false)
    · exact noAdjWs_pyStripChars _ (collapseAux_noAdjWs _ false)
  rw [hcoll]
  exact pyStripChars_eq_self t (headNotWs_pyStripChars _) (lastNotWs_pyStripChars _)

/-- `cleanRowText` (whitespace collapse via split/join, then NUL removal)
is idempotent on NUL-free input. -/
theorem cleanRowText_idem (s : String) (h : ∀ c ∈ s.data, ¬ c = '\x00') :
    cleanRowText (cleanRowText s) = cleanRowText s := by
  rw [cleanRowText, cleanRowText]
  apply congrArg String.mk
  have hvalid : ∀ w ∈ splitWords s.data, w ≠ [] ∧ ∀ c ∈ w, ¬ pyIsSpace c :=
    pySplitAux_words_valid s.data [] (by simp)
  have hnonul : removeNul (joinWords (splitWords s.data)) =
      joinWords (splitWords s.data) := by
    rw [removeNul, List.filter_eq_self]
    intro c hc
    rcases mem_joinWords _ c hc with rfl | ⟨w, hw, hcw⟩
    · decide
    · rcases mem_pySplitAux_chars s.data [] w hw c hcw with h1 | h1
      · simpa using h c h1
      · simp at h1
  show removeNul (joinWords (splitWords
    (String.mk (removeNul (joinWords (splitWords s.data)))).data)) = _
  have hdata : (String.mk (removeNul (joinWords (splitWords s.data)))).data =
      removeNul (joinWords (splitWords s.data)) := rfl
  rw [hdata, hnonul, splitWords_joinWords _ hvalid]
  exact hnonul

/-! ## The Facebook final DataFrame -/

/-- A Facebook row with the four sentiment columns that
`SentimentAnalyzer.analyze_posts_and_comments` adds. -/
structure FBFinalRow where
  row : FacebookScraperPipeline.FBDerivedRow
  post_sentiment_label : String
  post_sentiment_score : ℚ
  comment_sentiment_label : String
  comment_sentiment_score : ℚ
deriving DecidableEq, Repr

namespace SentimentAnalyzer

/-- `analyze_posts_and_comments` on one row: the post text and the comment
text are classified independently (`fillna("").astype(str)` is the
identity on these string-valued columns). -/
def analyze_df_row (o : SentOracle) (d : FacebookScraperPipeline.FBDerivedRow) :
    FBFinalRow :=
  let ps := analyze_elem o d.row.post.post_message
  let cs := analyze_elem o d.row.comment.comment_text
  { row := d
    post_sentiment_label := ps.label
    post_sentiment_score := ps.score
    comment_sentiment_label := cs.label
    comment_sentiment_score := cs.score }

/-- `SentimentAnalyzer.analyze_posts_and_comments`: per-row results in
order (the loop appends one result per row of each text column). -/
def analyze_posts_and_comments (o : SentOracle)
    (df : List FacebookScraperPipeline.FBDerivedRow) : List FBFinalRow :=
  df.map (analyze_df_row o)

end SentimentAnalyzer

namespace FacebookScraperPipeline

/-- The DataFrame that `_process_and_save_final` writes to the final CSV
(on the non-empty path): rows are flattened and cleaned, the DataFrame is
cleaned, deduplicated on (post_id, comment_id) keeping the first
occurrence, derived columns are added, and sentiment analysis runs. -/
def process_and_save_final_df (o : SentOracle) (data : List FBPost) :
    List FBFinalRow :=
  SentimentAnalyzer.analyze_posts_and_comments o
    (add_derived_columns
      (dropDuplicatesBy fb_key (clean_dataframe (final_rows data))))

/-- The (post_id, comment_id) key of a final row (the enrichment steps
keep the underlying row in the `row` field). -/
def fb_final_key (r : FBFinalRow) : String × String := fb_key r.row.row

/-- Derived columns and sentiment as a single row-wise enrichment. -/
def fb_enrich (o : SentOracle) (r : FBRow) : FBFinalRow :=
  SentimentAnalyzer.analyze_df_row o (add_derived_row r)

end FacebookScraperPipeline

/-! ## Claim theorems -/

theorem fb_final_df_eq_map (o : SentOracle) (data : List FBPost) :
    FacebookScraperPipeline.process_and_save_final_df o data =
      (dropDuplicatesBy FacebookScraperPipeline.fb_key
        (FacebookScraperPipeline.clean_dataframe
          (FacebookScraperPipeline.final_rows data))).map
        (FacebookScraperPipeline.fb_enrich o) := by
  rw [FacebookScraperPipeline.process_and_save_final_df,
    SentimentAnalyzer.analyze_posts_and_comments,
    FacebookScraperPipeline.add_derived_columns, List.map_map]
  rfl

/-- C1: in the final Facebook DataFrame no two rows share the composite
key (post_id, comment_id) and, for each key, the row written is the first
matching row of the cleaned pre-dedup table (enriched row-wise by derived
columns and sentiment); likewise the Instagram post-URL DataFrame is
deduplicated on (post_url, comment_id) keeping the first occurrence. -/
theorem C1_final_tables_deduplicated_by_composite_key
    (o : SentOracle) (data : List FBPost)
    (inc : Bool) (mc : Nat) (items : List InstaItem) :
    ((FacebookScraperPipeline.process_and_save_final_df o data).Pairwise
        (fun a b => ¬ FacebookScraperPipeline.fb_final_key a =
          FacebookScraperPipeline.fb_final_key b) ∧
      ∀ k, (FacebookScraperPipeline.process_and_save_final_df o data).find?
          (fun r => FacebookScraperPipeline.fb_final_key r = k) =
        ((FacebookScraperPipeline.clean_dataframe
            (FacebookScraperPipeline.final_rows data)).find?
          (fun r => FacebookScraperPipeline.fb_key r = k)).map
            (FacebookScraperPipeline.fb_enrich o)) ∧
    ((InstagramScraperPipeline.scrape_post_urls_df inc mc items).Pairwise
        (fun a b => ¬ InstagramScraperPipeline.insta_key a =
          InstagramScraperPipeline.insta_key b) ∧
      ∀ k, (InstagramScraperPipeline.scrape_post_urls_df inc mc items).find?
          (fun r => InstagramScraperPipeline.insta_key r = k) =
        (InstagramScraperPipeline.unified_records inc mc items).find?
          (fun r => InstagramScraperPipeline.insta_key r = k)) := by
  refine ⟨⟨?_, ?_⟩, ?_⟩
  · rw [fb_final_df_eq_map, List.pairwise_map]
    exact dropDuplicatesBy_pairwise FacebookScraperPipeline.fb_key _
  · intro k
    rw [fb_final_df_eq_map, List.find?_map]
    exact congrArg (Option.map (FacebookScraperPipeline.fb_enrich o))
      (dropDuplicatesBy_find? FacebookScraperPipeline.fb_key _ k)
  · cases hur : InstagramScraperPipeline.unified_records inc mc items with
    | nil =>
      refine ⟨?_, ?_⟩
      · simp [InstagramScraperPipeline.scrape_post_urls_df, hur]
      · intro k
        simp [InstagramScraperPipeline.scrape_post_urls_df, hur]
    | cons r rs =>
      have hdf : InstagramScraperPipeline.scrape_post_urls_df inc mc items =
          dropDuplicatesBy InstagramScraperPipeline.insta_key (r :: rs) := by
        simp [InstagramScraperPipeline.scrape_post_urls_df, hur]
      refine ⟨?_, ?_⟩
      · rw [hdf]
        exact dropDuplicatesBy_pairwise InstagramScraperPipeline.insta_key _
      · intro k
        rw [hdf]
        exact dropDuplicatesBy_find? InstagramScraperPipeline.insta_key _ k

/-- A concrete reply used in the C2 counterexample. -/
def tw_cex_reply (u : String) : TwReply :=
  { tweet_id := some "901"
    text := some "nice post"
    created_at := none
    author_username := some u
    author_name := some u
    author_verified := none
    author_followers := none
    retweet_count := none
    reply_count := none
    like_count := none
    quote_count := none
    tweet_url := none }

/-- Scraped input with the same reply appearing twice (the replies actor
can return duplicates, e.g. across nested conversation pages). -/
def tw_cex_data : List TweetData :=
  [{ tweet_id := "123"
     profile_info := { user := none, tweet_url := none, tweet_text := none }
     replies := [tw_cex_reply "op", tw_cex_reply "alice", tw_cex_reply "alice"]
     retweeters := [] }]

/-- A classifier oracle whose every call raises (everything falls back to
NEUTRAL/0.0); any oracle exhibits the duplicate rows. -/
def tw_cex_oracle : SentOracle := fun _ => none

/-- C2 is false on the code: `TwitterScraperPipeline._process_and_save_final`
never deduplicates, so a duplicated reply yields two rows with the same
(tweet_id, interaction_type, username) in the final DataFrame. -/
theorem C2_counterexample :
    ¬ (TwitterScraperPipeline.final_df tw_cex_oracle tw_cex_data).Pairwise
      (fun a b => ¬ TwitterScraperPipeline.tw_key a =
        TwitterScraperPipeline.tw_key b) := by
  decide

/-- C2 amended: the Twitter final table is not deduplicated.  The rows
written are exactly the flattened interaction rows (one per reply after
the first reply of a non-empty list is consumed as the main tweet text,
one per retweeter), so the row count is the sum of those counts and every
(tweet_id, interaction_type, username) key keeps its full multiplicity. -/
theorem C2_amended_twitter_not_deduplicated (o : SentOracle)
    (data : List TweetData) :
    (TwitterScraperPipeline.final_df o data).length =
      (data.map (fun td => (td.replies.length - 1) + td.retweeters.length)).sum ∧
    ∀ k, (TwitterScraperPipeline.final_df o data).countP
        (fun r => TwitterScraperPipeline.tw_key r = k) =
      (TwitterScraperPipeline.final_rows data).countP
        (fun r => (r.tweet_id, r.interaction_type, r.username) = k) := by
  constructor
  · rw [TwitterScraperPipeline.final_df, List.length_map,
      TwitterScraperPipeline.final_rows, List.length_flatMap]
    congr 1
    refine List.map_congr_left ?_
    intro td _
    match h : td.replies with
    | [] => simp [h]
    | r0 :: rest => simp [h]
  · intro k
    rw [TwitterScraperPipeline.final_df, List.countP_map]
    rfl

/-- C3: the Facebook flattening makes one row per comment of a post with
comments, one empty-comment row for a post without, so the pre-dedup row
count is the sum over posts of `max 1 (number of comments)`. -/
theorem C3_one_row_per_post_comment_pair (data : List FBPost) :
    ((FacebookScraperPipeline.final_rows data).length =
      (data.map (fun p => max 1 (p.comments.getD []).length)).sum) ∧
    (∀ p ∈ data, ∀ c ∈ p.comments.getD [],
      FacebookScraperPipeline.clean_row
        { post := FacebookScraperPipeline.flatten_post p
          comment := FacebookScraperPipeline.flatten_comment c } ∈
        FacebookScraperPipeline.final_rows data) ∧
    (∀ p ∈ data, p.comments.getD [] = [] →
      FacebookScraperPipeline.clean_row
        { post := FacebookScraperPipeline.flatten_post p
          comment := FacebookScraperPipeline.empty_comment } ∈
        FacebookScraperPipeline.final_rows data) := by
  refine ⟨?_, ?_, ?_⟩
  · rw [FacebookScraperPipeline.final_rows, List.length_flatMap]
    congr 1
    refine List.map_congr_left ?_
    intro p _
    match h : p.comments with
    | some (c :: cs) => simp [h]
    | some [] => simp [h, FacebookScraperPipeline.final_rows]
    | none => simp [h, FacebookScraperPipeline.final_rows]
  · intro p hp c hc
    rw [FacebookScraperPipeline.final_rows]
    refine List.mem_flatMap.mpr ⟨p, hp, ?_⟩
    match h : p.comments with
    | some (c' :: cs) =>
      simp only [h] at hc ⊢
      exact List.mem_map.mpr ⟨c, hc, rfl⟩
    | some [] => simp [h] at hc
    | none => simp [h] at hc
  · intro p hp hnone
    rw [FacebookScraperPipeline.final_rows]
    refine List.mem_flatMap.mpr ⟨p, hp, ?_⟩
    match h : p.comments with
    | some (c' :: cs) => simp [h] at hnone
    | some [] => simp [h]
    | none => simp [h]

/-- A concrete post and comment witnessing C3's membership clauses. -/
def fb_witness_comment : FBComment :=
  { comment_id := some "c1"
    text := some "great"
    timestamp := none
    author_id := none
    author_name := some "alice"
    author_url := none
    reactions_count := some 2
    replies_count := some 0 }

def fb_witness_post : FBPost :=
  { post_id := some "p1"
    url := some "https://facebook.com/p1"
    post_type := some "post"
    message := some "hello  world"
    timestamp := none
    author_id := none
    author_name := some "bob"
    author_url := none
    emoji_like := some 3
    emoji_love := some 1
    emoji_haha := some 0
    emoji_wow := some 0
    emoji_sad := some 0
    emoji_angry := some 0
    emoji_care := some 0
    total_reactions := some 4
    total_comments := some 1
    total_shares := some 0
    image_url := none
    video_url := none
    external_url := none
    comments := some [fb_witness_comment] }

def fb_witness_post_nocomments : FBPost :=
  { fb_witness_post with post_id := some "p2", comments := some [] }

theorem C3_witness :
    FacebookScraperPipeline.clean_row
      { post := FacebookScraperPipeline.flatten_post fb_witness_post
        comment := FacebookScraperPipeline.flatten_comment fb_witness_comment } ∈
      FacebookScraperPipeline.final_rows
        [fb_witness_post, fb_witness_post_nocomments] ∧
    FacebookScraperPipeline.clean_row
      { post := FacebookScraperPipeline.flatten_post fb_witness_post_nocomments
        comment := FacebookScraperPipeline.empty_comment } ∈
      FacebookScraperPipeline.final_rows
        [fb_witness_post, fb_witness_post_nocomments] :=
  ⟨(C3_one_row_per_post_comment_pair
      [fb_witness_post, fb_witness_post_nocomments]).2.1
        fb_witness_post (by decide) fb_witness_comment (by decide),
    (C3_one_row_per_post_comment_pair
      [fb_witness_post, fb_witness_post_nocomments]).2.2
        fb_witness_post_nocomments (by decide) (by decide)⟩

/-- C4: on every row, `post_engagement_total`, `positive_reactions` and
`negative_reactions` are the stated sums, and `dominant_emotion` is the
name (with the `emoji_` prefix removed) of an emoji column holding the
row's maximum emoji count. -/
theorem C4_derived_columns_compute_from_inputs (r : FBRow) :
    (FacebookScraperPipeline.add_derived_row r).post_engagement_total =
      r.post.post_total_reactions + r.post.post_total_comments +
        r.post.post_total_shares ∧
    (FacebookScraperPipeline.add_derived_row r).positive_reactions =
      r.post.emoji_like + r.post.emoji_love + r.post.emoji_haha +
        r.post.emoji_wow + r.post.emoji_care ∧
    (FacebookScraperPipeline.add_derived_row r).negative_reactions =
      r.post.emoji_sad + r.post.emoji_angry ∧
    ∃ p ∈ FacebookScraperPipeline.emoji_pairs r,
      (FacebookScraperPipeline.add_derived_row r).dominant_emotion =
        pyReplaceStr "emoji_" "" p.1 ∧
      ∀ q ∈ FacebookScraperPipeline.emoji_pairs r, q.2 ≤ p.2 := by
  refine ⟨rfl, rfl, rfl, ?_⟩
  obtain ⟨q, hq, heq, hmax⟩ := idxmax_spec ("emoji_like", r.post.emoji_like)
    [("emoji_love", r.post.emoji_love), ("emoji_haha", r.post.emoji_haha),
     ("emoji_wow", r.post.emoji_wow), ("emoji_sad", r.post.emoji_sad),
     ("emoji_angry", r.post.emoji_angry), ("emoji_care", r.post.emoji_care)]
  refine ⟨q, hq, ?_, hmax⟩
  show pyReplaceStr "emoji_" ""
    (idxmax (FacebookScraperPipeline.emoji_pairs r)) = pyReplaceStr "emoji_" "" q.1
  rw [show idxmax (FacebookScraperPipeline.emoji_pairs r) = q.1 from heq]

/-- C5: `sentiment_ratio` is the guarded division — equal to
`positive_reactions / post_total_reactions` exactly when
`post_total_reactions > 0` (where the denominator is provably non-zero,
so the real division recovers the numerator), and `0` otherwise. -/
theorem C5_sentiment_ratio_guarded_division (r : FBRow) :
    ((FacebookScraperPipeline.add_derived_row r).sentiment_ratio =
      if 0 < r.post.post_total_reactions then
        ((FacebookScraperPipeline.add_derived_row r).positive_reactions : ℚ) /
          (r.post.post_total_reactions : ℚ)
      else 0) ∧
    (0 < r.post.post_total_reactions →
      ((r.post.post_total_reactions : ℚ) ≠ 0 ∧
        (FacebookScraperPipeline.add_derived_row r).sentiment_ratio *
            (r.post.post_total_reactions : ℚ) =
          ((FacebookScraperPipeline.add_derived_row r).positive_reactions : ℚ))) ∧
    (r.post.post_total_reactions ≤ 0 →
      (FacebookScraperPipeline.add_derived_row r).sentiment_ratio = 0) := by
  refine ⟨rfl, ?_, ?_⟩
  · intro hpos
    have hne : (r.post.post_total_reactions : ℚ) ≠ 0 := by
      exact_mod_cast ne_of_gt (by exact_mod_cast hpos)
    refine ⟨hne, ?_⟩
    show (if 0 < r.post.post_total_reactions then
        ((FacebookScraperPipeline.add_derived_row r).positive_reactions : ℚ) /
          (r.post.post_total_reactions : ℚ)
      else 0) * (r.post.post_total_reactions : ℚ) = _
    rw [if_pos hpos, div_mul_cancel₀ _ hne]
  · intro hle
    have : ¬ 0 < r.post.post_total_reactions := not_lt.mpr hle
    show (if 0 < r.post.post_total_reactions then _ else 0) = 0
    rw [if_neg this]

/-- Witness for C5's implications at a concrete row: positive total
reactions on `fb_witness_post`'s flattened row. -/
theorem C5_witness :
    (FacebookScraperPipeline.add_derived_row
      { post := FacebookScraperPipeline.flatten_post fb_witness_post
        comment :=
          FacebookScraperPipeline.flatten_comment fb_witness_comment }).sentiment_ratio *
        ((FacebookScraperPipeline.flatten_post fb_witness_post).post_total_reactions : ℚ) =
      ((FacebookScraperPipeline.add_derived_row
        { post := FacebookScraperPipeline.flatten_post fb_witness_post
          comment :=
            FacebookScraperPipeline.flatten_comment fb_witness_comment }).positive_reactions : ℚ) :=
  ((C5_sentiment_ratio_guarded_division
    { post := FacebookScraperPipeline.flatten_post fb_witness_post
      comment := FacebookScraperPipeline.flatten_comment fb_witness_comment }).2.1
    (by decide)).2

/-- C6: for the Facebook comment helper, the Instagram actor helper and
the Twitter actor helper, an actor-call exception, a dataset-iteration
exception, or a run without a dataset id yields the empty list (the
helpers' totality in this model is the absence of propagation), and the
Facebook caller proceeds, attaching the empty comment list to each post. -/
theorem C6_failures_caught_and_pipeline_continues
    (envF : FacebookScraperPipeline.FBCommentsEnv) (u : Option String) (m : Int)
    (envI : InstagramScraperPipeline.InstaActorEnv InstaItem)
    {α : Type} (envT : TwitterScraperPipeline.TwActorEnv α)
    (posts : List FBPost) (mpp : Int) :
    (envF.call (FacebookScraperPipeline.comments_run_input u m) =
        Except.error () →
      (FacebookScraperPipeline.scrape_comments envF u m).1 = []) ∧
    (envF.call (FacebookScraperPipeline.comments_run_input u m) = Except.ok none →
      (FacebookScraperPipeline.scrape_comments envF u m).1 = []) ∧
    (∀ rd, envF.call (FacebookScraperPipeline.comments_run_input u m) =
        Except.ok (some rd) → rd.defaultDatasetId = none →
      (FacebookScraperPipeline.scrape_comments envF u m).1 = []) ∧
    (∀ rd d, envF.call (FacebookScraperPipeline.comments_run_input u m) =
        Except.ok (some rd) → rd.defaultDatasetId = some d →
      envF.iterate d = Except.error () →
      (FacebookScraperPipeline.scrape_comments envF u m).1 = []) ∧
    ((∀ inp, envF.call inp = Except.error ()) →
      FacebookScraperPipeline.attach_comments envF mpp posts =
        posts.map fun p => { p with comments := some [] }) ∧
    ((∀ i, InstagramScraperPipeline.run_attempt envI i =
        InstagramScraperPipeline.AttemptOutcome.failed) →
      InstagramScraperPipeline.run_apify_actor envI = ([], 3)) ∧
    (∀ rd, envI.call 1 = Except.ok (some rd) → rd.defaultDatasetId = none →
      InstagramScraperPipeline.run_apify_actor envI = ([], 1)) ∧
    (envT.call = Except.error () →
      TwitterScraperPipeline.run_actor_and_get_items envT = (Except.ok [], 1)) ∧
    (∀ rd, envT.call = Except.ok (some rd) → rd.defaultDatasetId = none →
      TwitterScraperPipeline.run_actor_and_get_items envT = (Except.ok [], 1)) ∧
    (∀ rd d, envT.call = Except.ok (some rd) → rd.defaultDatasetId = some d →
      envT.iterate d = Except.error () →
      TwitterScraperPipeline.run_actor_and_get_items envT = (Except.ok [], 1)) := by
  refine ⟨?_, ?_, ?_, ?_, ?_, ?_, ?_, ?_, ?_, ?_⟩
  · intro h
    by_cases hg : ¬ truthy u ∨ pyStripStr (u.getD "") = ""
    · simp only [FacebookScraperPipeline.scrape_comments, if_pos hg]
    · simp only [FacebookScraperPipeline.scrape_comments, if_neg hg, h]
  · intro h
    by_cases hg : ¬ truthy u ∨ pyStripStr (u.getD "") = ""
    · simp only [FacebookScraperPipeline.scrape_comments, if_pos hg]
    · simp only [FacebookScraperPipeline.scrape_comments, if_neg hg, h]
  · intro rd h hd
    by_cases hg : ¬ truthy u ∨ pyStripStr (u.getD "") = ""
    · simp only [FacebookScraperPipeline.scrape_comments, if_pos hg]
    · simp only [FacebookScraperPipeline.scrape_comments, if_neg hg, h, hd]
  · intro rd d h hd hit
    by_cases hg : ¬ truthy u ∨ pyStripStr (u.getD "") = ""
    · simp only [FacebookScraperPipeline.scrape_comments, if_pos hg]
    · simp only [FacebookScraperPipeline.scrape_comments, if_neg hg, h, hd, hit]
  · intro h
    rw [FacebookScraperPipeline.attach_comments]
    refine List.map_congr_left ?_
    intro p _
    have hsc : (FacebookScraperPipeline.scrape_comments envF
        (some (p.url.getD "")) mpp).1 = [] := by
      by_cases hg : ¬ truthy (some (p.url.getD "")) ∨
          pyStripStr ((some (p.url.getD "") : Option String).getD "") = ""
      · simp only [FacebookScraperPipeline.scrape_comments, if_pos hg]
      · simp only [FacebookScraperPipeline.scrape_comments, if_neg hg, h]
    rw [hsc]
  · intro h
    rw [InstagramScraperPipeline.run_apify_actor, h 1, h 2, h 3]
  · intro rd h hd
    simp only [InstagramScraperPipeline.run_apify_actor,
      InstagramScraperPipeline.run_attempt, h, hd]
  · intro h
    rw [TwitterScraperPipeline.run_actor_and_get_items, h]
  · intro rd h hd
    simp only [TwitterScraperPipeline.run_actor_and_get_items, h, hd]
  · intro rd d h hd hit
    simp only [TwitterScraperPipeline.run_actor_and_get_items, h, hd]
    by_cases hde : d = ""
    · rw [if_pos hde]
    · rw [if_neg hde, hit]

/-- An environment whose every external interaction raises. -/
def envF_allfail : FacebookScraperPipeline.FBCommentsEnv :=
  { call := fun _ => Except.error ()
    iterate := fun _ => Except.error () }

def envI_allfail : InstagramScraperPipeline.InstaActorEnv InstaItem :=
  { call := fun _ => Except.error ()
    iterate := fun _ _ => Except.error () }

def envT_allfail : TwitterScraperPipeline.TwActorEnv TwReply :=
  { call := Except.error ()
    iterate := fun _ => Except.error () }

/-- Witness for C6 at concrete failing environments. -/
theorem C6_witness :
    (FacebookScraperPipeline.scrape_comments envF_allfail
      (some "https://facebook.com/post/1") 50).1 = [] ∧
    InstagramScraperPipeline.run_apify_actor envI_allfail = ([], 3) ∧
    TwitterScraperPipeline.run_actor_and_get_items envT_allfail =
      (Except.ok [], 1) := by
  have h := C6_failures_caught_and_pipeline_continues envF_allfail
    (some "https://facebook.com/post/1") 50 envI_allfail envT_allfail [] 50
  refine ⟨h.1 rfl, ?_, ?_⟩
  · refine h.2.2.2.2.2.1 ?_
    intro i
    rw [InstagramScraperPipeline.run_attempt]
    rfl
  · exact h.2.2.2.2.2.2.2.1 rfl

/-- C7 is false as stated: an invocation of the Facebook comment helper
with a blank (`None`) post URL returns before calling the actor, making
zero attempts rather than exactly one. -/
theorem C7_counterexample :
    ¬ (FacebookScraperPipeline.scrape_comments envF_allfail none 50).2 = 1 := by
  decide

/-- C7 amended: the Instagram helper attempts the call at most 3 times and
returns `[]` when all three attempts fail; the Twitter helper makes
exactly one attempt per invocation; the Facebook comment helper makes at
most one attempt — exactly one when the post URL is non-blank and zero
when the blank-URL guard returns first. -/
theorem C7_amended_retry_policy {α β : Type}
    (envI : InstagramScraperPipeline.InstaActorEnv α)
    (envT : TwitterScraperPipeline.TwActorEnv β)
    (envF : FacebookScraperPipeline.FBCommentsEnv) (u : Option String)
    (m : Int) :
    (InstagramScraperPipeline.run_apify_actor envI).2 ≤ 3 ∧
    ((∀ i, InstagramScraperPipeline.run_attempt envI i =
        InstagramScraperPipeline.AttemptOutcome.failed) →
      InstagramScraperPipeline.run_apify_actor envI = ([], 3)) ∧
    (TwitterScraperPipeline.run_actor_and_get_items envT).2 = 1 ∧
    (FacebookScraperPipeline.scrape_comments envF u m).2 =
      (if ¬ truthy u ∨ pyStripStr (u.getD "") = "" then 0 else 1) := by
  refine ⟨?_, ?_, ?_, ?_⟩
  · rw [InstagramScraperPipeline.run_apify_actor]
    cases InstagramScraperPipeline.run_attempt envI 1 with
    | done items =>
      show (1 : Nat) ≤ 3
      decide
    | failed =>
      cases InstagramScraperPipeline.run_attempt envI 2 with
      | done items =>
        show (2 : Nat) ≤ 3
        decide
      | failed =>
        cases InstagramScraperPipeline.run_attempt envI 3 with
        | done items =>
          show (3 : Nat) ≤ 3
          decide
        | failed =>
          show (3 : Nat) ≤ 3
          decide
  · intro h
    rw [InstagramScraperPipeline.run_apify_actor, h 1, h 2, h 3]
  · rcases hc : envT.call with e | orun
    · simp only [TwitterScraperPipeline.run_actor_and_get_items, hc]
    · rcases orun with _ | run
      · simp only [TwitterScraperPipeline.run_actor_and_get_items, hc]
      · rcases hd : run.defaultDatasetId with _ | d
        · simp only [TwitterScraperPipeline.run_actor_and_get_items, hc, hd]
        · by_cases hde : d = ""
          · simp only [TwitterScraperPipeline.run_actor_and_get_items, hc, hd,
              if_pos hde]
          · rcases hi : envT.iterate d with e | items
            · simp only [TwitterScraperPipeline.run_actor_and_get_items, hc,
                hd, if_neg hde, hi]
            · simp only [TwitterScraperPipeline.run_actor_and_get_items, hc,
                hd, if_neg hde, hi]
  · by_cases hg : ¬ truthy u ∨ pyStripStr (u.getD "") = ""
    · simp only [FacebookScraperPipeline.scrape_comments, if_pos hg]
    · simp only [FacebookScraperPipeline.scrape_comments, if_neg hg]
      rcases hc : envF.call (FacebookScraperPipeline.comments_run_input u m)
        with e | orun
      · simp only [hc]
      · rcases orun with _ | run
        · simp only [hc]
        · rcases hd : run.defaultDatasetId with _ | d
          · simp only [hc, hd]
          · rcases hi : envF.iterate d with e | items
            · simp only [hc, hd, hi]
            · simp only [hc, hd, hi]

/-- Witness for C7's amended statement at concrete environments: three
failing Instagram attempts, one Twitter attempt, and a whitespace-only
Facebook post URL making zero attempts. -/
theorem C7_amended_witness :
    InstagramScraperPipeline.run_apify_actor envI_allfail = ([], 3) ∧
    (TwitterScraperPipeline.run_actor_and_get_items envT_allfail).2 = 1 ∧
    (FacebookScraperPipeline.scrape_comments envF_allfail (some " ") 50).2 = 0 := by
  have h := C7_amended_retry_policy envI_allfail envT_allfail envF_allfail
    (some " ") 50
  refine ⟨h.2.1 ?_, h.2.2.1, ?_⟩
  · intro i
    rw [InstagramScraperPipeline.run_attempt]
    rfl
  · rw [h.2.2.2]
    decide

/-- C9: in all three sentiment analyzers a missing (`NaN`), empty,
whitespace-only or literal `"nan"` text skips the classifier and gets
NEUTRAL with score 0.0 (the Facebook analyzer receives the text after
`fillna("")`); a classifier exception also falls back to NEUTRAL/0.0; and
each batch produces exactly one result per input row. -/
theorem C9_neutral_fallback_for_missing_text (o : SentOracle)
    (t : Option String) (s : String) (texts : List (Option String)) :
    ((t = none ∨ pyStripStr (t.getD "") = "" ∨ t.getD "" = "nan") →
      (SentimentAnalyzer.analyze_elem o (t.getD "") = neutralResult ∧
        InstagramSentimentAnalyzer.batch_elem o t = neutralResult ∧
        TwitterSentimentAnalyzer.batch_elem o t = neutralResult)) ∧
    (o (pyTake 512 s) = none →
      (SentimentAnalyzer.analyze_elem o s = neutralResult ∧
        InstagramSentimentAnalyzer.batch_elem o (some s) = neutralResult ∧
        TwitterSentimentAnalyzer.batch_elem o (some s) = neutralResult)) ∧
    (InstagramSentimentAnalyzer.analyze_text_batch o texts).length =
      texts.length ∧
    (TwitterSentimentAnalyzer.analyze_text_batch o texts).length =
      texts.length := by
  refine ⟨?_, ?_, List.length_map _ _, List.length_map _ _⟩
  · intro h
    rcases t with _ | s'
    · refine ⟨?_, rfl, rfl⟩
      rw [SentimentAnalyzer.analyze_elem]
      have : pyStripStr ((none : Option String).getD "") = "" := by decide
      rw [if_pos (Or.inl this)]
    · have hcond : pyStripStr s' = "" ∨ s' = "nan" := by
        rcases h with h | h | h
        · exact absurd h (by simp)
        · exact Or.inl h
        · exact Or.inr h
      refine ⟨?_, ?_, ?_⟩
      · simp only [Option.getD_some]
        rw [SentimentAnalyzer.analyze_elem, if_pos hcond]
      · rw [InstagramSentimentAnalyzer.batch_elem, if_pos hcond]
      · rw [TwitterSentimentAnalyzer.batch_elem, if_pos hcond]
  · intro h
    refine ⟨?_, ?_, ?_⟩
    · rw [SentimentAnalyzer.analyze_elem]
      by_cases hcond : pyStripStr s = "" ∨ s = "nan"
      · rw [if_pos hcond]
      · rw [if_neg hcond, h]
    · rw [InstagramSentimentAnalyzer.batch_elem]
      by_cases hcond : pyStripStr s = "" ∨ s = "nan"
      · rw [if_pos hcond]
      · rw [if_neg hcond, h]
    · rw [TwitterSentimentAnalyzer.batch_elem]
      by_cases hcond : pyStripStr s = "" ∨ s = "nan"
      · rw [if_pos hcond]
      · rw [if_neg hcond, h]

/-- Witness for C9 at a whitespace-only text and an always-raising
classifier. -/
theorem C9_witness :
    InstagramSentimentAnalyzer.batch_elem (fun _ => none) (some "  ") =
      neutralResult ∧
    TwitterSentimentAnalyzer.batch_elem (fun _ => none) (some "oops") =
      neutralResult :=
  ⟨((C9_neutral_fallback_for_missing_text (fun _ => none) (some "  ")
      "x" []).1 (Or.inr (Or.inl (by decide)))).2.1,
    ((C9_neutral_fallback_for_missing_text (fun _ => none) (some "oops")
      "oops" []).2.1 rfl).2.2⟩

/-- The conditional cleanup `_clean_row` applies to one truthy text field,
applied twice, equals one application — on NUL-free input. -/
theorem cleanRowText_cond_idem (s : String) (h : ∀ c ∈ s.data, ¬ c = '\x00') :
    (if ¬ (if ¬ s = "" then cleanRowText s else s) = "" then
        cleanRowText (if ¬ s = "" then cleanRowText s else s)
      else (if ¬ s = "" then cleanRowText s else s)) =
      (if ¬ s = "" then cleanRowText s else s) := by
  by_cases hs : s = ""
  · simp [hs]
  · rw [if_pos hs]
    by_cases hcs : cleanRowText s = ""
    · simp [hcs]
    · rw [if_pos hcs, cleanRowText_idem s h]

theorem clean_dataframe_row_idem (r : FBRow) :
    FacebookScraperPipeline.clean_dataframe_row
        (FacebookScraperPipeline.clean_dataframe_row r) =
      FacebookScraperPipeline.clean_dataframe_row r := by
  simp [FacebookScraperPipeline.clean_dataframe_row, cleanDfText_idem]

/-- A row whose post message holds a NUL byte next to whitespace. -/
def c10_row : FBRow :=
  { post := FacebookScraperPipeline.flatten_post
      { fb_witness_post with message := some "\x00 a" }
    comment := FacebookScraperPipeline.empty_comment }

/-- C10 is false as stated: `_clean_row` collapses whitespace before
removing NUL bytes, so on `"\x00 a"` the first pass yields `" a"` and a
second pass yields `"a"` — applying it twice differs from once. -/
theorem C10_counterexample :
    ¬ FacebookScraperPipeline.clean_row (FacebookScraperPipeline.clean_row
        c10_row) = FacebookScraperPipeline.clean_row c10_row := by
  decide

/-- C10 amended: `_clean_row` is idempotent on rows whose `post_message`
and `comment_text` contain no NUL byte, and `_clean_dataframe` (which
removes NUL bytes first) is idempotent on every DataFrame. -/
theorem C10_amended_cleanup_idempotent (r : FBRow) (df : List FBRow)
    (h1 : ∀ c ∈ r.post.post_message.data, ¬ c = '\x00')
    (h2 : ∀ c ∈ r.comment.comment_text.data, ¬ c = '\x00') :
    FacebookScraperPipeline.clean_row (FacebookScraperPipeline.clean_row r) =
      FacebookScraperPipeline.clean_row r ∧
    FacebookScraperPipeline.clean_dataframe
        (FacebookScraperPipeline.clean_dataframe df) =
      FacebookScraperPipeline.clean_dataframe df := by
  constructor
  · simp only [FacebookScraperPipeline.clean_row]
    congr 1
    · congr 1
      exact cleanRowText_cond_idem r.post.post_message h1
    · congr 1
      exact cleanRowText_cond_idem r.comment.comment_text h2
  · rw [FacebookScraperPipeline.clean_dataframe,
      FacebookScraperPipeline.clean_dataframe, List.map_map]
    refine List.map_congr_left ?_
    intro x _
    exact clean_dataframe_row_idem x

/-- Witness for C10's amended statement on a NUL-free row. -/
theorem C10_amended_witness :
    FacebookScraperPipeline.clean_row (FacebookScraperPipeline.clean_row
      { post := FacebookScraperPipeline.flatten_post fb_witness_post
        comment := FacebookScraperPipeline.flatten_comment fb_witness_comment }) =
      FacebookScraperPipeline.clean_row
        { post := FacebookScraperPipeline.flatten_post fb_witness_post
          comment := FacebookScraperPipeline.flatten_comment fb_witness_comment } :=
  (C10_amended_cleanup_idempotent
    { post := FacebookScraperPipeline.flatten_post fb_witness_post
      comment := FacebookScraperPipeline.flatten_comment fb_witness_comment }
    [] (by decide) (by decide)).1
